import Mathlib

/-!
Verification of the weather-dashboard repository: a shallow embedding of the
city directory (WorldCitiesDatabase), the weather client (WeatherAPI and the
alternate front end IntegratedWeatherDashboard), the owner-thread polling
queue (WeatherDashboardGUI.process_queue), the comparison aggregator, and the
payload formatting functions, together with theorems settling the frozen
claims about them.

Conventions of the embedding:
* Python lists become Lean lists; dict literals with fixed insertion order
  become association lists in that order.
* Python string lowercasing is modeled per character (ASCII letters map to
  their lowercase forms, every other character is unchanged).  On every
  character occurring in this program, that is, ASCII plus the lowercase
  accented Latin letters of the catalog, this agrees with Python str.lower.
* Machine floats in payloads are modeled as rationals; the exact decimal text
  Python produces for a float is a display concern and is abstracted by the
  rendering helpers (the theorems below never depend on digit rendering).
* Fallible Python code (dict subscripting, list indexing) is modeled in the
  Except monad with an explicit exception type, so that catching KeyError
  and propagating every other exception is visible in the definitions.
-/

/-! ## City directory: WorldCitiesDatabase -/

namespace WorldCitiesDatabase

/-- The static catalog built in `WorldCitiesDatabase.__init__`
(src/GuI_weather_report.py lines 33 to 146): continent, in dict insertion
order, mapped to countries, in dict insertion order, mapped to the ordered
list of city names.  Transcribed verbatim from the source. -/
def cities : List (String × List (String × List String)) :=
  [("North America", [
    ("United States", ["New York", "Los Angeles", "Chicago", "Houston", "Phoenix", "Philadelphia", "San Antonio", "San Diego", "Dallas", "San Jose", "Austin", "Jacksonville", "San Francisco", "Columbus", "Charlotte", "Fort Worth", "Indianapolis", "Seattle", "Denver", "Washington DC", "Boston", "El Paso", "Nashville", "Detroit", "Oklahoma City", "Portland", "Las Vegas", "Memphis", "Louisville", "Baltimore", "Milwaukee", "Albuquerque", "Tucson", "Fresno", "Sacramento", "Kansas City", "Mesa", "Atlanta", "Colorado Springs", "Omaha", "Raleigh", "Miami", "Cleveland", "Tulsa", "Oakland", "Minneapolis"]),
    ("Canada", ["Toronto", "Montreal", "Vancouver", "Calgary", "Edmonton", "Ottawa", "Winnipeg", "Quebec City", "Hamilton", "Kitchener", "London", "Victoria", "Halifax", "Oshawa", "Windsor"]),
    ("Mexico", ["Mexico City", "Guadalajara", "Monterrey", "Puebla", "Tijuana", "León", "Juárez", "Torreón", "Querétaro", "San Luis Potosí"])]),
  ("South America", [
    ("Brazil", ["São Paulo", "Rio de Janeiro", "Brasília", "Salvador", "Fortaleza", "Belo Horizonte", "Manaus", "Curitiba", "Recife", "Porto Alegre"]),
    ("Argentina", ["Buenos Aires", "Córdoba", "Rosario", "Mendoza", "Tucumán", "La Plata", "Mar del Plata", "Salta", "Santa Fe", "San Juan"]),
    ("Chile", ["Santiago", "Valparaíso", "Concepción", "La Serena", "Antofagasta", "Temuco", "Rancagua", "Talca", "Arica", "Chillán"]),
    ("Colombia", ["Bogotá", "Medellín", "Cali", "Barranquilla", "Cartagena", "Cúcuta", "Bucaramanga", "Pereira", "Santa Marta", "Ibagué"])]),
  ("Europe", [
    ("United Kingdom", ["London", "Birmingham", "Manchester", "Glasgow", "Liverpool", "Leeds", "Sheffield", "Edinburgh", "Bristol", "Cardiff"]),
    ("Germany", ["Berlin", "Hamburg", "Munich", "Cologne", "Frankfurt", "Stuttgart", "Düsseldorf", "Dortmund", "Essen", "Leipzig"]),
    ("France", ["Paris", "Marseille", "Lyon", "Toulouse", "Nice", "Nantes", "Strasbourg", "Montpellier", "Bordeaux", "Lille"]),
    ("Italy", ["Rome", "Milan", "Naples", "Turin", "Palermo", "Genoa", "Bologna", "Florence", "Bari", "Catania"]),
    ("Spain", ["Madrid", "Barcelona", "Valencia", "Seville", "Zaragoza", "Málaga", "Murcia", "Palma", "Las Palmas", "Bilbao"]),
    ("Russia", ["Moscow", "Saint Petersburg", "Novosibirsk", "Yekaterinburg", "Nizhny Novgorod", "Kazan", "Chelyabinsk", "Omsk", "Samara", "Rostov-on-Don"])]),
  ("Asia", [
    ("China", ["Beijing", "Shanghai", "Guangzhou", "Shenzhen", "Tianjin", "Wuhan", "Dongguan", "Chengdu", "Nanjing", "Chongqing"]),
    ("India", ["Mumbai", "Delhi", "Bangalore", "Hyderabad", "Ahmedabad", "Chennai", "Kolkata", "Surat", "Pune", "Jaipur"]),
    ("Japan", ["Tokyo", "Yokohama", "Osaka", "Nagoya", "Sapporo", "Fukuoka", "Kobe", "Kawasaki", "Kyoto", "Saitama"]),
    ("South Korea", ["Seoul", "Busan", "Incheon", "Daegu", "Daejeon", "Gwangju", "Suwon", "Ulsan", "Changwon", "Goyang"]),
    ("Thailand", ["Bangkok", "Samut Prakan", "Mueang Nonthaburi", "Udon Thani", "Chon Buri", "Nakhon Ratchasima", "Chiang Mai", "Hat Yai", "Pak Kret", "Si Racha"])]),
  ("Africa", [
    ("Nigeria", ["Lagos", "Kano", "Ibadan", "Kaduna", "Port Harcourt", "Benin City", "Maiduguri", "Zaria", "Aba", "Jos"]),
    ("Egypt", ["Cairo", "Alexandria", "Giza", "Shubra El Kheima", "Port Said", "Suez", "Luxor", "Mansoura", "El Mahalla El Kubra", "Tanta"]),
    ("South Africa", ["Cape Town", "Johannesburg", "Durban", "Pretoria", "Port Elizabeth", "Pietermaritzburg", "Benoni", "Tembisa", "East London", "Vereeniging"])]),
  ("Oceania", [
    ("Australia", ["Sydney", "Melbourne", "Brisbane", "Perth", "Adelaide", "Gold Coast", "Newcastle", "Canberra", "Sunshine Coast", "Wollongong"]),
    ("New Zealand", ["Auckland", "Wellington", "Christchurch", "Hamilton", "Tauranga", "Napier-Hastings", "Dunedin", "Palmerston North", "Nelson", "Rotorua"])])]

/-- Python str.lower modeled per character.  ASCII capitals are mapped to the
corresponding small letters and every other character is unchanged, which is
exactly Char.toLower.  Every character appearing in the catalog is an ASCII
letter, a space, a hyphen, or an already lowercase accented Latin letter, and
on all of those Python str.lower behaves the same way. -/
def pyLower (s : String) : String :=
  String.mk (s.data.map Char.toLower)

/-- Python substring membership test, `needle in hay` on strings: the
character sequence of the needle occurs contiguously inside the character
sequence of the haystack. -/
def containsSub (hay needle : String) : Bool :=
  decide (needle.data <:+: hay.data)

/-- Python sorted() on a list of strings: a stable sort under lexicographic
codepoint order, which is the String linear order. -/
def sortStrings (l : List String) : List String :=
  l.mergeSort (fun a b => decide (a ≤ b))

/-- The flat traversal of the catalog: continents in insertion order, then
countries in insertion order, then the city list of each country.  Each of
`get_all_cities`, `search_cities` and the city-location scan of the GUI walks
the nested dicts in exactly this order. -/
def allCityNames : List String :=
  cities.flatMap (fun cont => cont.2.flatMap (fun country => country.2))

/-- Embedding of `WorldCitiesDatabase.get_all_cities` (lines 148 to 154): collect every
city in traversal order, then return the sorted list. -/
def get_all_cities : List String :=
  sortStrings allCityNames

/-- Embedding of `WorldCitiesDatabase.search_cities` (lines 172 to 181): lowercase the
query once, keep the cities whose lowercased name contains it, in traversal
order, then return the sorted matches. -/
def search_cities (query : String) : List String :=
  sortStrings (allCityNames.filter (fun city => containsSub (pyLower city) (pyLower query)))

/-- The curated list built inside `get_popular_cities` (lines 185 to 192). -/
def popular : List String :=
  ["New York", "London", "Tokyo", "Paris", "Singapore", "Sydney", "Dubai", "Hong Kong", "Los Angeles", "Barcelona", "Amsterdam", "Seoul", "Berlin", "Rome", "Madrid", "Mumbai", "Bangkok", "Istanbul", "Vienna", "Prague", "Buenos Aires", "São Paulo", "Mexico City", "Cairo", "Moscow", "Delhi", "Shanghai", "Beijing", "Toronto", "Vancouver", "Montreal", "Chicago", "San Francisco", "Miami", "Las Vegas", "Orlando", "Boston", "Washington DC"]

/-- Embedding of `WorldCitiesDatabase.get_popular_cities` (lines 183 to 193): the curated
list truncated by the Python slice `popular[:limit]`.  For the nonnegative
limits the claims quantify over, the slice is exactly List.take. -/
def get_popular_cities (limit : Nat) : List String :=
  popular.take limit

end WorldCitiesDatabase

/-! ## City location scan: WeatherDashboardGUI.find_city_location -/

namespace WeatherDashboardGUI

/-- Inner loop of `find_city_location` over the countries of one continent
(src/GuI_weather_report.py lines 744 to 747): the first country whose city
list contains the name wins. -/
def findLocInCountries (city continent : String) :
    List (String × List String) → Option (String × String)
  | [] => none
  | (country, cityList) :: rest =>
    if cityList.contains city then some (continent, country)
    else findLocInCountries city continent rest

/-- Outer loop of `find_city_location` over the continents, in catalog
insertion order. -/
def findLocInCatalog (city : String) :
    List (String × List (String × List String)) → Option (String × String)
  | [] => none
  | (continent, countries) :: rest =>
    match findLocInCountries city continent countries with
    | some loc => some loc
    | none => findLocInCatalog city rest

/-- Embedding of `WeatherDashboardGUI.find_city_location` (lines 742 to 748): scan the
catalog in traversal order and return the continent and country of the first
country list containing the city, or the Unknown pair when no list does. -/
def find_city_location (city : String) : String × String :=
  (findLocInCatalog city WorldCitiesDatabase.cities).getD ("Unknown", "Unknown")

end WeatherDashboardGUI

/-- The catalog flattened to (continent, country, cityList) entries in
traversal order: continent insertion order, then country insertion order.
This is the reference order against which first-match resolution of
`find_city_location` is stated. -/
def catalogEntries : List (String × String × List String) :=
  WorldCitiesDatabase.cities.flatMap
    (fun cont => cont.2.map (fun country => (cont.1, country.1, country.2)))

/-! ## Owner-thread polling queue

The GUI shares exactly one mutable structure between the worker threads and
the owner thread: a FIFO `queue.Queue`.  Workers call `queue.put`; the owner
thread runs `process_queue` (src/GuI_weather_report.py lines 1245 to 1265),
which pops with `get_nowait` and dispatches each message until the queue
raises Empty, then reschedules itself with `root.after(100, ...)`.  The model
below keeps the queue contents and the list of messages already dispatched,
in dispatch order.  One poll step is one run of `process_queue`; it is atomic
here, which matches the claim about messages already queued when the drain
begins. -/

/-- Shared state of the polling pattern: the pending FIFO queue contents and
the messages already dispatched on the owner thread, oldest first. -/
structure QueueState (α : Type) where
  pending : List α
  applied : List α
deriving DecidableEq, Repr

/-- An event of the polling pattern: a worker enqueues a message, or the
owner thread runs one full `process_queue` pass. -/
inductive QueueEvent (α : Type)
  | put (msg : α)
  | poll
deriving DecidableEq

/-- Model of `queue.put` from a worker: append to the FIFO. -/
def queuePut {α : Type} (s : QueueState α) (m : α) : QueueState α :=
  ⟨s.pending ++ [m], s.applied⟩

/-- One run of `WeatherDashboardGUI.process_queue`: `get_nowait` until Empty
dispatches every currently queued message, oldest first, so the whole pending
list is appended to the applied list and the queue is left empty. -/
def process_queue {α : Type} (s : QueueState α) : QueueState α :=
  ⟨[], s.applied ++ s.pending⟩

/-- Transition of the polling pattern on one event. -/
def stepQueue {α : Type} (s : QueueState α) : QueueEvent α → QueueState α
  | .put m => queuePut s m
  | .poll => process_queue s

/-- Run a sequence of events from a state. -/
def runQueue {α : Type} (s : QueueState α) (es : List (QueueEvent α)) : QueueState α :=
  es.foldl stepQueue s

/-- The messages a sequence of events enqueues, in enqueue order. -/
def putsOf {α : Type} (es : List (QueueEvent α)) : List α :=
  es.filterMap (fun e => match e with | .put m => some m | .poll => none)

/-- The empty initial state: nothing queued, nothing dispatched. -/
def initQueueState (α : Type) : QueueState α := ⟨[], []⟩

/-! ## Weather client: WeatherAPI and the alternate front end -/

/-- Value of one HTTP query parameter. -/
inductive ParamVal
  | strv (v : String)
  | intv (v : Int)
deriving DecidableEq, Repr

/-- Outcome of one `session.get` transport attempt, as seen by the client
code: either an HTTP response with a final status code and a parsed JSON
body, or a raised `requests` exception for a DNS failure, a refused
connection, or a timeout. -/
inductive TransportOutcome (α : Type)
  | response (status : Nat) (body : α)
  | dnsFailure
  | connectionRefused
  | timeout
deriving DecidableEq

/-- Predicate of `response.raise_for_status()`: it raises HTTPError exactly for client-error
and server-error status codes, that is 4xx and 5xx. -/
def raiseForStatus (status : Nat) : Bool :=
  decide (400 ≤ status ∧ status < 600)

namespace WeatherAPI

/-- Query parameters built by `WeatherAPI.get_weather_data`
(src/GuI_weather_report.py lines 206 to 210). -/
def get_weather_params (api_key city : String) : List (String × ParamVal) :=
  [("q", .strv city), ("appid", .strv api_key), ("units", .strv "metric")]

/-- Query parameters built by `WeatherAPI.get_forecast_data`
(src/GuI_weather_report.py lines 220 to 225): the current-weather parameters
plus the item count `cnt = days * 8`. -/
def get_forecast_params (api_key city : String) (days : Int) : List (String × ParamVal) :=
  [("q", .strv city), ("appid", .strv api_key), ("units", .strv "metric"),
   ("cnt", .intv (days * 8))]

/-- Result mapping of `WeatherAPI.get_weather_data` (lines 203 to 215): the
whole body is a try block whose except clause catches every
RequestException and returns None.  A raised transport exception therefore
collapses to none; a response first passes `raise_for_status`, which raises
(and is caught, giving none) exactly on a 4xx or 5xx code, and otherwise the
parsed body is returned.  `WeatherAPI.get_forecast_data` (lines 217 to 230)
has the identical error shape. -/
def get_weather_data {α : Type} (outcome : TransportOutcome α) : Option α :=
  match outcome with
  | .response status body => if raiseForStatus status then none else some body
  | .dnsFailure => none
  | .connectionRefused => none
  | .timeout => none

end WeatherAPI

namespace IntegratedWeatherDashboard

/-- Query parameters built by `IntegratedWeatherDashboard.get_forecast_data`
in the alternate front end (src/Web_page_weather_report.py lines 68 to 83):
only q, appid and units; no item-count parameter is constructed and the
function takes no day-count argument. -/
def get_forecast_params (api_key city : String) : List (String × ParamVal) :=
  [("q", .strv city), ("appid", .strv api_key), ("units", .strv "metric")]

end IntegratedWeatherDashboard

/-! ## Worker threads, comparison set and comparison aggregator -/

/-- A message on the GUI queue: the tag string, the optional payload, and the
associated city (`None` for the comparison message is modeled by the caller
passing its own message type; this record covers the per-city fetches). -/
structure QueueMsg (α : Type) where
  kind : String
  payload : Option α
  city : String
deriving DecidableEq

namespace WeatherDashboardGUI

/-- Embedding of `WeatherDashboardGUI.fetch_current_weather` (lines 792 to 798), the body
of one worker thread: fetch, then enqueue the tagged message.  The fetch
itself returns None on any transport failure instead of raising, so the
except branch of the worker is unreachable and the worker always enqueues
exactly this one message. -/
def fetch_current_weather {α : Type} (city : String) (outcome : TransportOutcome α) :
    QueueMsg α :=
  ⟨"current_weather", WeatherAPI.get_weather_data outcome, city⟩

/-- Embedding of `WeatherDashboardGUI.add_comparison_city` (lines 828 to 836): the chosen
name is appended at the end of the listbox unless it is already present. -/
def add_comparison_city (current : List String) (selected : String) : List String :=
  if selected ∈ current then current else current ++ [selected]

/-- Embedding of `WeatherDashboardGUI.fetch_comparison_data` (lines 872 to 887): one
worker walks the chosen cities in order; a city whose fetch returns a payload
contributes a (city, data) record, and a city whose fetch fails contributes
nothing.  The per-city fetch outcome is abstracted into the function
argument.  (In the source the guard is Python truthiness of the result; a
fetch that failed yields None and is dropped, which the none case models.) -/
def fetch_comparison_data {α : Type} (get_data : String → Option α) :
    List String → List (String × α)
  | [] => []
  | city :: rest =>
    match get_data city with
    | some data => (city, data) :: fetch_comparison_data get_data rest
    | none => fetch_comparison_data get_data rest

end WeatherDashboardGUI

/-! ## JSON payloads and the formatting functions

Payloads parsed from the API responses are JSON values.  Numbers are carried
as rationals; the digit strings Python would print for its floats, and the
local-timezone rendering of datetime.fromtimestamp, are display concerns
abstracted by the helpers below (marked display abstraction).  The dict and
list subscripting semantics, the access order, and the KeyError catch are
modeled faithfully, because those decide the error-handling claims. -/

/-- The Python exceptions the formatting code can raise: a KeyError carrying
the missing key, an IndexError from indexing past the end of a list, and a
TypeError from subscripting or arithmetic on a value of the wrong shape.
Only KeyError is caught by the formatting functions. -/
inductive PyErr
  | keyError (key : String)
  | indexErr
  | typeErr
deriving DecidableEq, Repr

/-- A JSON value as parsed from an API response body. -/
inductive JVal
  | strv (s : String)
  | num (q : Rat)
  | arr (xs : List JVal)
  | obj (fields : List (String × JVal))

namespace JVal

/-- Python `v[k]` for a string key: on a dict, the value stored at the key
or KeyError; on anything else, TypeError. -/
def getItem : JVal → String → Except PyErr JVal
  | .obj fields, k =>
    match fields.find? (fun f => f.1 == k) with
    | some f => .ok f.2
    | none => .error (.keyError k)
  | _, _ => .error .typeErr

/-- Python `v[i]` for an integer index: on a list, the element at the index
or IndexError; on anything else, TypeError.  (The source only ever indexes
with 0.) -/
def getIdx : JVal → Nat → Except PyErr JVal
  | .arr xs, i =>
    match xs[i]? with
    | some x => .ok x
    | none => .error .indexErr
  | _, _ => .error .typeErr

/-- Python `v.get(k, default)` on a dict; calling .get on a non-dict raises
(AttributeError in Python, folded into the uncaught typeErr here). -/
def getDefault : JVal → String → JVal → Except PyErr JVal
  | .obj fields, k, dflt => .ok ((fields.find? (fun f => f.1 == k)).elim dflt (·.2))
  | _, _, _ => .error .typeErr

/-- A numeric value, or TypeError where Python arithmetic or
datetime.fromtimestamp would reject the operand. -/
def asNum : JVal → Except PyErr Rat
  | .num q => .ok q
  | _ => .error .typeErr

/-- A string value, or TypeError where Python would reject a non-string
(str.title on a non-string raises, folded into typeErr). -/
def asStr : JVal → Except PyErr String
  | .strv s => .ok s
  | _ => .error .typeErr

/-- The element list of a JSON array; iterating a non-list raises. -/
def asArr : JVal → Except PyErr (List JVal)
  | .arr xs => .ok xs
  | _ => .error .typeErr

end JVal

/-- Rational addition written through mkRat, so that it evaluates inside the
kernel; it computes the same value as the standard addition and is used only
in display plumbing. -/
def ratAdd (a b : Rat) : Rat :=
  mkRat (a.num * b.den + b.num * a.den) (a.den * b.den)

/-- Rational multiplication written through mkRat, same conventions as
ratAdd. -/
def ratMul (a b : Rat) : Rat :=
  mkRat (a.num * b.num) (a.den * b.den)

/-- Rational division written through mkRat, same conventions as ratAdd. -/
def ratDiv (a b : Rat) : Rat :=
  if b.num < 0 then mkRat (-(a.num * (b.den : Int))) (a.den * b.num.natAbs)
  else mkRat (a.num * (b.den : Int)) (a.den * b.num.natAbs)

/-- Display abstraction: the decimal text of a number under str().  The exact
digits Python prints for a float are not modeled; no theorem below depends on
this rendering. -/
def numToStr (q : Rat) : String :=
  if q.den = 1 then toString q.num else toString q.num ++ "/" ++ toString q.den

/-- Display abstraction: Python str() of a payload value, as used by
f-string interpolation of a raw JSON value. -/
def pyStr : JVal → String
  | .strv s => s
  | .num q => numToStr q
  | .arr _ => "<list>"
  | .obj _ => "<dict>"

/-- Helper for pyTitle: walk the characters knowing whether the previous
character was a letter. -/
def pyTitleGo : Bool → List Char → List Char
  | _, [] => []
  | prevAlpha, c :: cs =>
    (if c.isAlpha then (if prevAlpha then c.toLower else c.toUpper) else c)
      :: pyTitleGo c.isAlpha cs

/-- Python str.title(): the first letter of every word is uppercased and the
other letters lowercased, a word being a maximal run of letters. -/
def pyTitle (s : String) : String :=
  String.mk (pyTitleGo false s.data)

/-- Python str.strip(): remove leading and trailing whitespace. -/
def pyStrip (s : String) : String :=
  String.mk (((s.data.dropWhile Char.isWhitespace).reverse.dropWhile Char.isWhitespace).reverse)

/-- Two-digit zero padding. -/
def pad2 (n : Nat) : String :=
  if n < 10 then "0" ++ toString n else toString n

/-- Display abstraction: strftime with a time-of-day format applied to
datetime.fromtimestamp of an epoch-seconds number.  The local timezone of
fromtimestamp is abstracted to UTC.  HH:MM:SS form. -/
def fmtClock (ts : Rat) : String :=
  let n := (Int.emod ts.floor 86400).toNat
  pad2 (n / 3600) ++ ":" ++ pad2 ((n % 3600) / 60) ++ ":" ++ pad2 (n % 60)

/-- Display abstraction, HH:MM form citing the same conventions as fmtClock. -/
def fmtClockHM (ts : Rat) : String :=
  let n := (Int.emod ts.floor 86400).toNat
  pad2 (n / 3600) ++ ":" ++ pad2 ((n % 3600) / 60)

/-- The calendar day of datetime.fromtimestamp(ts).date(), as a day index
since the epoch; the local timezone is abstracted to UTC.  The grouping of
forecast samples into days keys on this value. -/
def pyDate (ts : Rat) : Int :=
  (ratDiv ts 86400).floor

/-- Civil calendar date (year, month, day) of an epoch day index, by the
standard era decomposition of the proleptic Gregorian calendar. -/
def civilFromDays (z0 : Int) : Int × Nat × Nat :=
  let z := z0 + 719468
  let era := Int.fdiv z 146097
  let doe := (z - era * 146097).toNat
  let yoe := (doe - doe / 1460 + doe / 36524 - doe / 146096) / 365
  let doy := doe - (365 * yoe + yoe / 4 - yoe / 100)
  let mp := (5 * doy + 2) / 153
  let d := doy - (153 * mp + 2) / 5 + 1
  let m := if mp < 10 then mp + 3 else mp - 9
  ((if m ≤ 2 then (yoe : Int) + era * 400 + 1 else (yoe : Int) + era * 400), m, d)

/-- Weekday names as produced by strftime %A, indexed so that the epoch day
0, a Thursday, maps correctly. -/
def weekdayName (z : Int) : String :=
  (["Sunday", "Monday", "Tuesday", "Wednesday", "Thursday", "Friday", "Saturday"].getD
    ((Int.emod (z + 4) 7).toNat) "")

/-- Month names as produced by strftime %B. -/
def monthName (m : Nat) : String :=
  (["January", "February", "March", "April", "May", "June", "July", "August",
    "September", "October", "November", "December"].getD (m - 1) "")

/-- strftime with format %A, %B %d, %Y applied to an epoch day index, the
date header of each forecast day section. -/
def fmtDate (z : Int) : String :=
  let c := civilFromDays z
  weekdayName z ++ ", " ++ monthName c.2.1 ++ " " ++ pad2 c.2.2 ++ ", " ++ toString c.1

/-- Display abstraction: Python format {:.1f}, rendered by rounding half up
(Python rounds the nearest binary double to even; no theorem depends on the
digits). -/
def fmt1 (q : Rat) : String :=
  if q < 0 then
    let n := (ratAdd (ratMul (-q) 10) (mkRat 1 2)).floor.toNat
    "-" ++ toString (n / 10) ++ "." ++ toString (n % 10)
  else
    let n := (ratAdd (ratMul q 10) (mkRat 1 2)).floor.toNat
    toString (n / 10) ++ "." ++ toString (n % 10)

/-- Display abstraction: Python format {:.0f}, same conventions as fmt1. -/
def fmt0 (q : Rat) : String :=
  if q < 0 then "-" ++ toString (ratAdd (-q) (mkRat 1 2)).floor.toNat
  else toString (ratAdd q (mkRat 1 2)).floor.toNat

/-- Sum of a list of rationals. -/
def ratSum (l : List Rat) : Rat :=
  l.foldl ratAdd 0

/-- Minimum of a list of rationals, Python min on a nonempty list; the empty
case is unreachable where this is used (day groups are nonempty by
construction) and defaults to 0. -/
def listMinD : List Rat → Rat
  | [] => 0
  | x :: xs => xs.foldl min x

/-- Maximum of a list of rationals, same conventions as listMinD. -/
def listMaxD : List Rat → Rat
  | [] => 0
  | x :: xs => xs.foldl max x

/-- The condition chosen by max(set(conditions), key=conditions.count): an
element of maximal multiplicity.  The source iterates a Python set, whose
order is unspecified, so its tie-break is arbitrary; this picks the earliest
listed element of maximal count, one legitimate resolution of that
unspecified tie-break. -/
def mostCommon (l : List String) : String :=
  l.foldl (fun best c => if l.count c > l.count best then c else best) (l.headD "")

/-- Horizontal border of the report templates: 62 box-drawing double bars,
built programmatically (the rendered text is identical to the source
literal). -/
def hbar : String := String.mk (List.replicate 62 (Char.ofNat 0x2550))

/-- Quote character, used because str() of a Python KeyError wraps the
missing key in quotes. -/
def quoteCh : String := String.singleton (Char.ofNat 39)

/-- The inline message of the KeyError catch in format_current_weather
(src/GuI_weather_report.py lines 999 to 1000). -/
def missingKeyCurrentMsg (k : String) : String :=
  "Error formatting weather data: Missing key " ++ quoteCh ++ k ++ quoteCh

/-- The inline message of the KeyError catch in format_forecast (lines 1081
to 1082). -/
def missingKeyForecastMsg (k : String) : String :=
  "Error formatting forecast data: Missing key " ++ quoteCh ++ k ++ quoteCh

namespace WeatherDashboardGUI

/-- Body of the try block of `WeatherDashboardGUI.format_current_weather`
(lines 953 to 997): the field accesses in source order, then the report
template, finally stripped.  The generation timestamp datetime.now() is the
now argument. -/
def tryFormatCurrent (now : String) (data : JVal) : Except PyErr String := do
  let city ← data.getItem "name"
  let country ← (← data.getItem "sys").getItem "country"
  let temp ← (← data.getItem "main").getItem "temp"
  let feels_like ← (← data.getItem "main").getItem "feels_like"
  let humidity ← (← data.getItem "main").getItem "humidity"
  let pressure ← (← data.getItem "main").getItem "pressure"
  let descriptionRaw ← (← (← data.getItem "weather").getIdx 0).getItem "description"
  let descriptionStr ← descriptionRaw.asStr
  let description := pyTitle descriptionStr
  let wind_speed ← (← data.getItem "wind").getItem "speed"
  let wind_deg ← (← data.getItem "wind").getDefault "deg" (.num 0)
  let visibility ← data.getDefault "visibility" (.strv "N/A")
  let visS ← (match visibility with
    | JVal.strv s => if s = "N/A" then Except.ok "N/A" else Except.error PyErr.typeErr
    | JVal.num q => Except.ok (numToStr (ratDiv q 1000))
    | _ => Except.error PyErr.typeErr)
  let sunriseS := fmtClock (← (← (← data.getItem "sys").getItem "sunrise").asNum)
  let sunsetS := fmtClock (← (← (← data.getItem "sys").getItem "sunset").asNum)
  let cityS := pyStr city
  let countryS := pyStr country
  let tempS := pyStr temp
  let feelsS := pyStr feels_like
  let humS := pyStr humidity
  let presS := pyStr pressure
  let windS := pyStr wind_speed
  let degS := pyStr wind_deg
  pure (pyStrip (
    s!"\n╔{hbar}╗\n║                     CURRENT WEATHER REPORT                   ║\n╠{hbar}╣\n║ Location: {cityS}, {countryS}\n║ Last Updated: {now}\n║\n║ TEMPERATURE INFORMATION:\n║ ├─ Current Temperature: {tempS}°C\n║ ├─ Feels Like: {feelsS}°C\n║ ├─ Condition: {description}\n║\n║ ATMOSPHERIC CONDITIONS:\n║ ├─ Humidity: {humS}%\n║ ├─ Pressure: {presS} hPa\n║ ├─ Visibility: {visS} km\n║\n║ WIND INFORMATION:\n║ ├─ Speed: {windS} m/s\n║ ├─ Direction: {degS}°\n║\n║ SUN INFORMATION:\n║ ├─ Sunrise: {sunriseS}\n║ ├─ Sunset: {sunsetS}\n║\n╚{hbar}╝\n            "))

/-- Embedding of `WeatherDashboardGUI.format_current_weather` (lines 953 to 1000): the try
block, with the except clause catching exactly KeyError and returning the
inline message that names the missing key; every other exception propagates
to the caller. -/
def format_current_weather (now : String) (data : JVal) : Except PyErr String :=
  match tryFormatCurrent now data with
  | .error (.keyError k) => .ok (missingKeyCurrentMsg k)
  | r => r

/-- One step of the day-grouping dict of format_forecast: append the item to
the list of its date when that date was already seen, otherwise add the date
at the end, matching dict insertion order. -/
def addToDay (groups : List (Int × List JVal)) (d : Int) (item : JVal) :
    List (Int × List JVal) :=
  match groups with
  | [] => [(d, [item])]
  | (d0, xs) :: rest =>
    if d0 = d then (d0, xs ++ [item]) :: rest else (d0, xs) :: addToDay rest d item

/-- The grouping loop of format_forecast (lines 1038 to 1043), walking the
items and keying each on the calendar date of its dt field. -/
def groupForecastDaysGo (acc : List (Int × List JVal)) :
    List JVal → Except PyErr (List (Int × List JVal))
  | [] => .ok acc
  | item :: rest => do
    let dt ← (← item.getItem "dt").asNum
    groupForecastDaysGo (addToDay acc (pyDate dt) item) rest

/-- The day groups of a forecast item list, in first-seen order. -/
def groupForecastDays (items : List JVal) : Except PyErr (List (Int × List JVal)) :=
  groupForecastDaysGo [] items

/-- One day section of the forecast report (lines 1046 to 1077): date header,
separator, temperature range, the most frequent condition, average humidity
and pressure, and the first four hourly detail lines. -/
def forecastDaySection (g : Int × List JVal) : Except PyErr String := do
  let forecasts := g.2
  let dateS := fmtDate g.1
  let temps ← forecasts.mapM (fun f => do (← (← f.getItem "main").getItem "temp").asNum)
  let conditions ← forecasts.mapM
    (fun f => do (← (← (← f.getItem "weather").getIdx 0).getItem "description").asStr)
  let hums ← forecasts.mapM (fun f => do (← (← f.getItem "main").getItem "humidity").asNum)
  let press ← forecasts.mapM (fun f => do (← (← f.getItem "main").getItem "pressure").asNum)
  let minS := fmt1 (listMinD temps)
  let maxS := fmt1 (listMaxD temps)
  let condS := pyTitle (mostCommon conditions)
  let humS := fmt0 (ratDiv (ratSum hums) ((forecasts.length : Nat) : Rat))
  let presS := fmt0 (ratDiv (ratSum press) ((forecasts.length : Nat) : Rat))
  let hourly ← (forecasts.take 4).mapM (fun f => do
    let timeS := fmtClockHM (← (← f.getItem "dt").asNum)
    let tempS := pyStr (← (← f.getItem "main").getItem "temp")
    let descRaw ← (← (← f.getItem "weather").getIdx 0).getItem "description"
    let descStr ← descRaw.asStr
    let descS := pyTitle descStr
    pure s!"  {timeS}: {tempS}°C, {descS}\n")
  let sep := String.mk (List.replicate 60 (Char.ofNat 61))
  pure (s!"\n{dateS}\n" ++ sep ++ "\n" ++
    s!"\nTemperature Range: {minS}°C - {maxS}°C\nCondition: {condS}\nAverage Humidity: {humS}%\nAverage Pressure: {presS} hPa\n\nHourly Details:\n" ++
    String.join hourly ++ "\n")

/-- Body of the try block of `WeatherDashboardGUI.format_forecast` (lines
1020 to 1079): header, grouping by day, and the first five day sections. -/
def tryFormatForecast (now : String) (data : JVal) : Except PyErr String := do
  let city ← (← data.getItem "city").getItem "name"
  let country ← (← data.getItem "city").getItem "country"
  let cityS := pyStr city
  let countryS := pyStr country
  let header :=
    s!"\n╔{hbar}╗\n║                    5-DAY WEATHER FORECAST                    ║\n╠{hbar}╣\n║ Location: {cityS}, {countryS}\n║ Generated: {now}\n║\n╚{hbar}╝\n\n"
  let items ← (← data.getItem "list").asArr
  let groups ← groupForecastDays items
  let sections ← (groups.take 5).mapM forecastDaySection
  pure (header ++ String.join sections)

/-- Embedding of `WeatherDashboardGUI.format_forecast` (lines 1020 to 1082): the try
block, with the except clause catching exactly KeyError and returning the
inline message that names the missing key; every other exception propagates
to the caller. -/
def format_forecast (now : String) (data : JVal) : Except PyErr String :=
  match tryFormatForecast now data with
  | .error (.keyError k) => .ok (missingKeyForecastMsg k)
  | r => r

/-- One row of the comparison table as built by
`WeatherDashboardGUI.display_comparison` (lines 1135 to 1144): city, the
formatted temperature, humidity, pressure and the title-cased condition, in
column order.  A lookup fault here is not caught anywhere in
display_comparison and would propagate. -/
def comparison_row (city : String) (data : JVal) :
    Except PyErr (String × String × String × String × String) := do
  let tempN ← (← (← data.getItem "main").getItem "temp").asNum
  let humidity ← (← data.getItem "main").getItem "humidity"
  let pressure ← (← data.getItem "main").getItem "pressure"
  let descRaw ← (← (← data.getItem "weather").getIdx 0).getItem "description"
  let descStr ← descRaw.asStr
  pure (city, fmt1 tempN ++ "°C", pyStr humidity ++ "%", pyStr pressure ++ " hPa",
    pyTitle descStr)

/-- The rows `WeatherDashboardGUI.display_comparison` (lines 1124 to 1149)
inserts into the comparison table, one per aggregated result in result
order.  (With an empty result list the source shows a warning dialog and
inserts nothing, which is the empty row list here.) -/
def display_comparison (results : List (String × JVal)) :
    Except PyErr (List (String × String × String × String × String)) :=
  results.mapM (fun r => comparison_row r.1 r.2)

end WeatherDashboardGUI

/-! ## Concrete payload fixtures used by the witnesses -/

/-- A current-weather payload for Tokyo with every field the comparison row
reads. -/
def tokyoPayload : JVal :=
  JVal.obj [
    ("main", JVal.obj [("temp", JVal.num 18), ("humidity", JVal.num 55),
      ("pressure", JVal.num 1012)]),
    ("weather", JVal.arr [JVal.obj [("description", JVal.strv "clear sky")]])]

/-- A malformed current-weather payload: name and sys are present and well
shaped but the main field is absent, so the first formatting fault is the
KeyError on main.  It also lacks the city field the forecast formatter reads
first. -/
def payloadMissingMain : JVal :=
  JVal.obj [("name", JVal.strv "Tokyo"), ("sys", JVal.obj [("country", JVal.strv "JP")])]

/-! ## Helper lemmas -/

theorem mem_sortStrings {a : String} {l : List String} :
    a ∈ WorldCitiesDatabase.sortStrings l ↔ a ∈ l := by
  unfold WorldCitiesDatabase.sortStrings
  exact List.mem_mergeSort

theorem sorted_sortStrings (l : List String) :
    (WorldCitiesDatabase.sortStrings l).Sorted (· ≤ ·) := by
  unfold WorldCitiesDatabase.sortStrings
  have h := @List.sorted_mergeSort String (fun a b : String => decide (a ≤ b))
    (fun a b c hab hbc => by
      simp only [decide_eq_true_eq] at *
      exact le_trans hab hbc)
    (fun a b => by
      simp only [Bool.or_eq_true, decide_eq_true_eq]
      exact le_total a b) l
  exact h.imp (fun hab => by simpa using hab)

theorem findLocInCountries_eq (city continent : String)
    (cs : List (String × List String)) :
    WeatherDashboardGUI.findLocInCountries city continent cs =
      (cs.find? (fun co => co.2.contains city)).map (fun co => (continent, co.1)) := by
  induction cs with
  | nil => rfl
  | cons head tail ih =>
    obtain ⟨country, cityList⟩ := head
    by_cases h : city ∈ cityList
    · simp [WeatherDashboardGUI.findLocInCountries, List.find?_cons, h]
    · simp [WeatherDashboardGUI.findLocInCountries, List.find?_cons, h, ih]

theorem findLocInCatalog_eq (city : String)
    (db : List (String × List (String × List String))) :
    WeatherDashboardGUI.findLocInCatalog city db =
      ((db.flatMap (fun cont => cont.2.map (fun co => (cont.1, co.1, co.2)))).find?
        (fun e => e.2.2.contains city)).map (fun e => (e.1, e.2.1)) := by
  induction db with
  | nil => rfl
  | cons head tail ih =>
    obtain ⟨continent, countries⟩ := head
    have lhs_eq : WeatherDashboardGUI.findLocInCatalog city ((continent, countries) :: tail) =
        match WeatherDashboardGUI.findLocInCountries city continent countries with
        | some loc => some loc
        | none => WeatherDashboardGUI.findLocInCatalog city tail := rfl
    rw [lhs_eq, findLocInCountries_eq, List.flatMap_cons, List.find?_append, List.find?_map]
    have hcomp : ((fun e : String × String × List String => e.2.2.contains city) ∘
        (fun co : String × List String => (continent, co.1, co.2))) =
        (fun co : String × List String => co.2.contains city) := rfl
    rw [hcomp]
    cases hc : countries.find? (fun co : String × List String => co.2.contains city) with
    | none => simpa using ih
    | some e => rfl

/-! ## Claim theorems -/

/-- C3: for every limit, get_popular_cities returns exactly
min(limit, length of the curated list) items, in curated order (the result
is a prefix of the curated list), and a limit at least the curated length
returns the entire curated list.  Nonnegativity of the limit is expressed by
the Nat type. -/
theorem get_popular_cities_spec (limit : Nat) :
    (WorldCitiesDatabase.get_popular_cities limit).length =
      min limit WorldCitiesDatabase.popular.length ∧
    WorldCitiesDatabase.get_popular_cities limit <+: WorldCitiesDatabase.popular ∧
    (WorldCitiesDatabase.popular.length ≤ limit →
      WorldCitiesDatabase.get_popular_cities limit = WorldCitiesDatabase.popular) := by
  refine ⟨?_, ?_, ?_⟩
  · simp [WorldCitiesDatabase.get_popular_cities]
  · exact List.take_prefix _ _
  · intro h
    simp [WorldCitiesDatabase.get_popular_cities, List.take_of_length_le h]

/-- Witness for C3 at the default limit 50: the curated list has at most 50
entries and the call returns it whole. -/
theorem get_popular_cities_spec_witness :
    WorldCitiesDatabase.popular.length ≤ 50 ∧
    WorldCitiesDatabase.get_popular_cities 50 = WorldCitiesDatabase.popular :=
  ⟨by decide, (get_popular_cities_spec 50).2.2 (by decide)⟩

/-- C10: searching with the empty query returns the entire catalog, as the
same list get_all_cities produces: same elements, duplicates included, in
the same sorted order. -/
theorem search_empty_eq_get_all_cities :
    WorldCitiesDatabase.search_cities "" = WorldCitiesDatabase.get_all_cities := by
  have hfil : WorldCitiesDatabase.allCityNames.filter
      (fun city => WorldCitiesDatabase.containsSub (WorldCitiesDatabase.pyLower city)
        (WorldCitiesDatabase.pyLower "")) = WorldCitiesDatabase.allCityNames :=
    List.filter_eq_self.mpr (fun a _ => by
      simp only [WorldCitiesDatabase.containsSub, WorldCitiesDatabase.pyLower,
        decide_eq_true_eq]
      exact List.nil_infix)
  show WorldCitiesDatabase.sortStrings (WorldCitiesDatabase.allCityNames.filter
      (fun city => WorldCitiesDatabase.containsSub (WorldCitiesDatabase.pyLower city)
        (WorldCitiesDatabase.pyLower ""))) =
    WorldCitiesDatabase.sortStrings WorldCitiesDatabase.allCityNames
  rw [hfil]

/-- C4: find_city_location returns the continent and country of the first
catalog entry containing the city under traversal order (continent insertion
order, then country insertion order), and the Unknown sentinel pair when no
entry contains it. -/
theorem find_city_location_spec (city : String) :
    WeatherDashboardGUI.find_city_location city =
      match catalogEntries.find? (fun e => e.2.2.contains city) with
      | some e => (e.1, e.2.1)
      | none => ("Unknown", "Unknown") := by
  have h : WeatherDashboardGUI.findLocInCatalog city WorldCitiesDatabase.cities =
      (catalogEntries.find? (fun e => e.2.2.contains city)).map (fun e => (e.1, e.2.1)) :=
    findLocInCatalog_eq city WorldCitiesDatabase.cities
  show (WeatherDashboardGUI.findLocInCatalog city WorldCitiesDatabase.cities).getD
      ("Unknown", "Unknown") = _
  rw [h]
  cases hc : catalogEntries.find? (fun e => e.2.2.contains city) with
  | none => rfl
  | some e => rfl

theorem charToLower_fix (c : Char) : c.toLower.toLower = c.toLower := by
  unfold Char.toLower
  by_cases h : c.toNat ≥ 65 ∧ c.toNat ≤ 90
  · rw [if_pos h]
    have hv : (c.toNat + 32).isValidChar := Or.inl (by omega)
    have ht : (Char.ofNat (c.toNat + 32)).toNat = c.toNat + 32 := by
      rw [Char.ofNat, dif_pos hv]
      rfl
    rw [if_neg]
    rw [ht]
    omega
  · rw [if_neg h, if_neg h]

theorem pyLower_data (s : String) :
    (WorldCitiesDatabase.pyLower s).data = s.data.map Char.toLower := rfl

theorem pyLower_pyLower (s : String) :
    WorldCitiesDatabase.pyLower (WorldCitiesDatabase.pyLower s) =
      WorldCitiesDatabase.pyLower s := by
  show String.mk ((s.data.map Char.toLower).map Char.toLower) =
    String.mk (s.data.map Char.toLower)
  rw [List.map_map]
  have hcomp : Char.toLower ∘ Char.toLower = Char.toLower := funext charToLower_fix
  rw [hcomp]

/-- C2: search returns an alphabetically sorted list whose members are
exactly the catalog cities whose lowercased name contains the lowercased
query as a contiguous substring; and for every catalog city and every
nonempty substring of it, the city is a member of the search for the
lowercased substring. -/
theorem search_cities_spec (q : String) :
    (WorldCitiesDatabase.search_cities q).Sorted (· ≤ ·) ∧
    (∀ c, c ∈ WorldCitiesDatabase.search_cities q ↔
      c ∈ WorldCitiesDatabase.allCityNames ∧
        (WorldCitiesDatabase.pyLower q).data <:+: (WorldCitiesDatabase.pyLower c).data) ∧
    (∀ c s : String, c ∈ WorldCitiesDatabase.allCityNames → s.data ≠ [] →
      s.data <:+: c.data →
      c ∈ WorldCitiesDatabase.search_cities (WorldCitiesDatabase.pyLower s)) := by
  refine ⟨sorted_sortStrings _, ?_, ?_⟩
  · intro c
    unfold WorldCitiesDatabase.search_cities
    rw [mem_sortStrings, List.mem_filter]
    simp [WorldCitiesDatabase.containsSub]
  · intro c s hc hs hinf
    unfold WorldCitiesDatabase.search_cities
    rw [mem_sortStrings, List.mem_filter]
    refine ⟨hc, ?_⟩
    simp only [WorldCitiesDatabase.containsSub, pyLower_pyLower, decide_eq_true_eq,
      pyLower_data]
    exact hinf.map Char.toLower

/-- Witness for C2: the catalog city London and its substring ondo. -/
theorem search_cities_spec_witness :
    "London" ∈ WorldCitiesDatabase.allCityNames ∧ "ondo".data ≠ [] ∧
    "ondo".data <:+: "London".data ∧
    "London" ∈ WorldCitiesDatabase.search_cities (WorldCitiesDatabase.pyLower "ondo") :=
  ⟨by decide, by decide, by decide,
    (search_cities_spec (WorldCitiesDatabase.pyLower "ondo")).2.2 "London" "ondo"
      (by decide) (by decide) (by decide)⟩

theorem runQueue_applied_pending {α : Type} (es : List (QueueEvent α)) (s : QueueState α) :
    (runQueue s es).applied ++ (runQueue s es).pending =
      s.applied ++ (s.pending ++ putsOf es) := by
  induction es generalizing s with
  | nil => simp [runQueue, putsOf]
  | cons e rest ih =>
    cases e with
    | put m =>
      have : runQueue s (QueueEvent.put m :: rest) = runQueue (queuePut s m) rest := rfl
      rw [this, ih]
      simp [queuePut, putsOf]
    | poll =>
      have : runQueue s (QueueEvent.poll :: rest) = runQueue (process_queue s) rest := rfl
      rw [this, ih]
      simp [process_queue, putsOf]

/-- C1: one poll pass drains the whole queue in FIFO order, and over a whole
run, for K fetches whose workers complete in an arbitrary permutation of the
issue order, the results are applied in completion (enqueue) order, each
exactly once: after the events (an arbitrary interleaving of the enqueues
with polls) and one final poll, the applied list is exactly the
completion-order result list and the queue is empty. -/
theorem process_queue_delivery {α : Type} [DecidableEq α] (K : Nat)
    (results : Fin K → α) (π : Equiv.Perm (Fin K)) (es : List (QueueEvent α))
    (h : putsOf es = (List.finRange K).map (fun i => results (π i))) :
    (∀ s : QueueState α, (process_queue s).pending = [] ∧
      (process_queue s).applied = s.applied ++ s.pending) ∧
    (runQueue (initQueueState α) (es ++ [QueueEvent.poll])).applied =
      (List.finRange K).map (fun i => results (π i)) ∧
    (runQueue (initQueueState α) (es ++ [QueueEvent.poll])).pending = [] ∧
    (∀ m : α, (runQueue (initQueueState α) (es ++ [QueueEvent.poll])).applied.count m =
      (putsOf es).count m) := by
  have hrun : runQueue (initQueueState α) (es ++ [QueueEvent.poll]) =
      process_queue (runQueue (initQueueState α) es) := by
    unfold runQueue
    rw [List.foldl_append]
    rfl
  have hkey := runQueue_applied_pending es (initQueueState α)
  have happ : (runQueue (initQueueState α) (es ++ [QueueEvent.poll])).applied =
      putsOf es := by
    rw [hrun]
    show (runQueue (initQueueState α) es).applied ++
      (runQueue (initQueueState α) es).pending = putsOf es
    simpa [initQueueState] using hkey
  refine ⟨fun s => ⟨rfl, rfl⟩, ?_, ?_, ?_⟩
  · rw [happ, h]
  · rw [hrun]
    rfl
  · intro m
    rw [happ]

/-- Witness for C1, the Paris and Oslo scenario of the spec: the fetch for
Paris is issued first, the worker for Oslo completes first, and the applied
order is Oslo before Paris. -/
theorem process_queue_delivery_witness :
    putsOf [QueueEvent.put "Oslo-result", QueueEvent.put "Paris-result"] =
      (List.finRange 2).map (fun i =>
        (fun j : Fin 2 => if j = 0 then "Paris-result" else "Oslo-result")
          ((Equiv.swap (0 : Fin 2) 1) i)) ∧
    (runQueue (initQueueState String)
        ([QueueEvent.put "Oslo-result", QueueEvent.put "Paris-result"] ++
          [QueueEvent.poll])).applied =
      (List.finRange 2).map (fun i =>
        (fun j : Fin 2 => if j = 0 then "Paris-result" else "Oslo-result")
          ((Equiv.swap (0 : Fin 2) 1) i)) :=
  ⟨by decide,
    (process_queue_delivery 2
      (fun j : Fin 2 => if j = 0 then "Paris-result" else "Oslo-result")
      (Equiv.swap 0 1)
      [QueueEvent.put "Oslo-result", QueueEvent.put "Paris-result"]
      (by decide)).2.1⟩

/-- C5 counterexample: the forecast fetch of the alternate front end
constructs its request without any item-count parameter at all, so the claim
that the forecast fetch always carries count == days * 8 fails on this
concrete request. -/
theorem web_forecast_request_has_no_count :
    (IntegratedWeatherDashboard.get_forecast_params "APIKEY" "Paris").find?
      (fun p => p.1 == "cnt") = none := by decide

/-- C5 amended: the GUI client WeatherAPI.get_forecast_data constructs its
request with the item-count parameter cnt = days * 8, in particular cnt = 40
at the default days = 5, while the alternate front end constructs its
forecast request with no item-count parameter. -/
theorem forecast_request_count_spec (api_key city : String) (days : Int) :
    (WeatherAPI.get_forecast_params api_key city days).find? (fun p => p.1 == "cnt") =
      some ("cnt", ParamVal.intv (days * 8)) ∧
    (WeatherAPI.get_forecast_params api_key city 5).find? (fun p => p.1 == "cnt") =
      some ("cnt", ParamVal.intv 40) ∧
    (IntegratedWeatherDashboard.get_forecast_params api_key city).find?
      (fun p => p.1 == "cnt") = none := by
  refine ⟨rfl, ?_, rfl⟩
  show some ("cnt", ParamVal.intv (5 * 8)) = some ("cnt", ParamVal.intv 40)
  norm_num

/-- C6 counterexample: a surfaced response with the non-2xx status 304 is
not collapsed to none; raise_for_status raises only on 4xx and 5xx, so the
body is returned as a success. -/
theorem get_weather_data_304_passes_body :
    WeatherAPI.get_weather_data (TransportOutcome.response 304 "cached-body") =
      some "cached-body" := rfl

/-- C6 amended: any raised transport fault (DNS failure, refused connection,
timeout) and any 4xx or 5xx response collapse to the none result without
distinguishing causes; the worker turns every outcome, failures included,
into one normal queue message; and the poll loop survives a failure and
still delivers a subsequent success, in order. -/
theorem transport_failure_collapses {α : Type} (status : Nat) (body : α)
    (city1 city2 : String) (h4 : 400 ≤ status) (h6 : status < 600) :
    WeatherAPI.get_weather_data (TransportOutcome.dnsFailure : TransportOutcome α) = none ∧
    WeatherAPI.get_weather_data (TransportOutcome.connectionRefused : TransportOutcome α) = none ∧
    WeatherAPI.get_weather_data (TransportOutcome.timeout : TransportOutcome α) = none ∧
    WeatherAPI.get_weather_data (TransportOutcome.response status body) = none ∧
    (∀ outcome : TransportOutcome α,
      (WeatherDashboardGUI.fetch_current_weather city1 outcome).kind = "current_weather" ∧
      (WeatherDashboardGUI.fetch_current_weather city1 outcome).city = city1) ∧
    (runQueue (initQueueState (QueueMsg α))
        [QueueEvent.put (WeatherDashboardGUI.fetch_current_weather city1
            (TransportOutcome.response status body)),
          QueueEvent.put (WeatherDashboardGUI.fetch_current_weather city2
            (TransportOutcome.response 200 body)),
          QueueEvent.poll]).applied =
      [⟨"current_weather", none, city1⟩, ⟨"current_weather", some body, city2⟩] := by
  have hrs : raiseForStatus status = true := by
    unfold raiseForStatus
    exact decide_eq_true ⟨h4, h6⟩
  have hfail : WeatherAPI.get_weather_data (TransportOutcome.response status body) = none := by
    show (if raiseForStatus status then none else some body) = none
    rw [hrs]
    rfl
  refine ⟨rfl, rfl, rfl, hfail, fun outcome => ⟨rfl, rfl⟩, ?_⟩
  show [(⟨"current_weather", WeatherAPI.get_weather_data
      (TransportOutcome.response status body), city1⟩ : QueueMsg α),
    ⟨"current_weather", WeatherAPI.get_weather_data
      (TransportOutcome.response 200 body), city2⟩] = _
  rw [hfail]
  rfl

/-- Witness for C6 amended, at a 404 failure for Paris followed by a 200
success for Oslo. -/
theorem transport_failure_collapses_witness :
    (400 ≤ 404 ∧ 404 < 600) ∧
    (runQueue (initQueueState (QueueMsg String))
        [QueueEvent.put (WeatherDashboardGUI.fetch_current_weather "Paris"
            (TransportOutcome.response 404 "ignored")),
          QueueEvent.put (WeatherDashboardGUI.fetch_current_weather "Oslo"
            (TransportOutcome.response 200 "ignored")),
          QueueEvent.poll]).applied =
      [⟨"current_weather", none, "Paris"⟩, ⟨"current_weather", some "ignored", "Oslo"⟩] :=
  ⟨⟨by decide, by decide⟩,
    (transport_failure_collapses 404 "ignored" "Paris" "Oslo"
      (by decide) (by decide)).2.2.2.2.2⟩

/-- C8: inserting into the comparison set keeps the previous entries as an
unchanged prefix, preserves freedom from duplicates, and on a state holding
at most one entry of the name (every state reachable by insertions), adding
the same name twice leaves exactly one entry of it. -/
theorem add_comparison_city_spec (current : List String) (selected : String) :
    current <+: WeatherDashboardGUI.add_comparison_city current selected ∧
    (current.Nodup → (WeatherDashboardGUI.add_comparison_city current selected).Nodup) ∧
    (current.count selected ≤ 1 →
      (WeatherDashboardGUI.add_comparison_city
        (WeatherDashboardGUI.add_comparison_city current selected) selected).count
          selected = 1) := by
  unfold WeatherDashboardGUI.add_comparison_city
  by_cases hmem : selected ∈ current
  · refine ⟨by simp [hmem], fun hd => by simpa [hmem] using hd, fun hcount => ?_⟩
    simp only [hmem, if_true]
    have h1 : 1 ≤ current.count selected := List.one_le_count_iff.mpr hmem
    omega
  · refine ⟨by simp [hmem], fun hd => ?_, fun _ => ?_⟩
    · simp [hmem, List.nodup_append, hd]
    · have hmem2 : selected ∈ current ++ [selected] := by simp
      simp only [hmem, if_false, hmem2, if_true]
      rw [List.count_append]
      rw [List.count_eq_zero.mpr hmem]
      simp

/-- Witness for C8 on the state holding Paris alone: adding Oslo twice
leaves one Oslo entry. -/
theorem add_comparison_city_spec_witness :
    (["Paris"].count "Oslo" ≤ 1) ∧
    (WeatherDashboardGUI.add_comparison_city
      (WeatherDashboardGUI.add_comparison_city ["Paris"] "Oslo") "Oslo").count "Oslo" = 1 :=
  ⟨by decide, (add_comparison_city_spec ["Paris"] "Oslo").2.2 (by decide)⟩

theorem fetch_comparison_data_fst {α : Type} (g : String → Option α)
    (cities : List String) :
    (WeatherDashboardGUI.fetch_comparison_data g cities).map Prod.fst =
      cities.filter (fun c => (g c).isSome) := by
  induction cities with
  | nil => rfl
  | cons c rest ih =>
    cases hg : g c with
    | some d =>
      simp [WeatherDashboardGUI.fetch_comparison_data, hg, List.filter_cons, ih]
    | none =>
      simp [WeatherDashboardGUI.fetch_comparison_data, hg, List.filter_cons, ih]

theorem fetch_comparison_data_mem {α : Type} (g : String → Option α)
    (cities : List String) :
    ∀ p ∈ WeatherDashboardGUI.fetch_comparison_data g cities, g p.1 = some p.2 := by
  induction cities with
  | nil => intro p hp; simp [WeatherDashboardGUI.fetch_comparison_data] at hp
  | cons c rest ih =>
    intro p hp
    cases hg : g c with
    | some d =>
      simp only [WeatherDashboardGUI.fetch_comparison_data, hg] at hp
      rcases List.mem_cons.mp hp with rfl | hp2
      · exact hg
      · exact ih p hp2
    | none =>
      simp only [WeatherDashboardGUI.fetch_comparison_data, hg] at hp
      exact ih p hp

theorem bindOkInv {β γ : Type} {x : Except PyErr β} {f : β → Except PyErr γ} {r : γ}
    (h : (x >>= f) = Except.ok r) : ∃ b, x = Except.ok b ∧ f b = Except.ok r :=
  match x, h with
  | Except.ok b, h => ⟨b, rfl, h⟩

theorem comparison_row_city (city : String) (data : JVal)
    (row : String × String × String × String × String)
    (h : WeatherDashboardGUI.comparison_row city data = Except.ok row) :
    row.1 = city := by
  unfold WeatherDashboardGUI.comparison_row at h
  obtain ⟨a1, -, h⟩ := bindOkInv h
  obtain ⟨a2, -, h⟩ := bindOkInv h
  obtain ⟨a3, -, h⟩ := bindOkInv h
  obtain ⟨a4, -, h⟩ := bindOkInv h
  obtain ⟨a5, -, h⟩ := bindOkInv h
  obtain ⟨a6, -, h⟩ := bindOkInv h
  obtain ⟨a7, -, h⟩ := bindOkInv h
  obtain ⟨a8, -, h⟩ := bindOkInv h
  obtain ⟨a9, -, h⟩ := bindOkInv h
  obtain ⟨a10, -, h⟩ := bindOkInv h
  obtain ⟨a11, -, h⟩ := bindOkInv h
  cases h
  rfl

theorem display_comparison_cities (results : List (String × JVal)) :
    ∀ rows, WeatherDashboardGUI.display_comparison results = Except.ok rows →
      rows.map (fun r => r.1) = results.map Prod.fst := by
  induction results with
  | nil =>
    intro rows h
    simp only [WeatherDashboardGUI.display_comparison, List.mapM_nil, pure,
      Except.pure, Except.ok.injEq] at h
    rw [← h]
    rfl
  | cons r rest ih =>
    intro rows h
    simp only [WeatherDashboardGUI.display_comparison, List.mapM_cons, bind,
      Except.bind, pure, Except.pure] at h
    cases hr : WeatherDashboardGUI.comparison_row r.1 r.2 with
    | error e => rw [hr] at h; cases h
    | ok row =>
      rw [hr] at h
      cases hrest : rest.mapM (fun x => WeatherDashboardGUI.comparison_row x.1 x.2) with
      | error e => rw [hrest] at h; cases h
      | ok rows2 =>
        rw [hrest] at h
        cases h
        have htail : rows2.map (fun r => r.1) = rest.map Prod.fst :=
          ih rows2 (by simpa [WeatherDashboardGUI.display_comparison] using hrest)
        simp [comparison_row_city r.1 r.2 row hr, htail]

/-- C7: the comparison aggregator yields one record per city whose fetch
succeeded, in input order (its city components are exactly the input list
filtered to the fetch successes), each record carrying the fetched payload;
cities whose fetch failed contribute nothing; and when the displayed rows
materialize, there is exactly one row per succeeded city, in the same input
order. -/
theorem fetch_comparison_spec (g : String → Option JVal) (cities : List String) :
    ((WeatherDashboardGUI.fetch_comparison_data g cities).map Prod.fst =
      cities.filter (fun c => (g c).isSome)) ∧
    (∀ p ∈ WeatherDashboardGUI.fetch_comparison_data g cities, g p.1 = some p.2) ∧
    (∀ rows, WeatherDashboardGUI.display_comparison
        (WeatherDashboardGUI.fetch_comparison_data g cities) = Except.ok rows →
      rows.map (fun r => r.1) = cities.filter (fun c => (g c).isSome)) :=
  ⟨fetch_comparison_data_fst g cities, fetch_comparison_data_mem g cities,
    fun rows h =>
      (display_comparison_cities _ rows h).trans (fetch_comparison_data_fst g cities)⟩

/-- Witness for C7: Tokyo succeeds with the fixture payload, Atlantis fails;
the aggregate keeps exactly the Tokyo record and the displayed rows reduce to
the one Tokyo row. -/
theorem fetch_comparison_spec_witness :
    (fun c => if c = "Tokyo" then some tokyoPayload else none) "Tokyo" =
      some tokyoPayload ∧
    WeatherDashboardGUI.display_comparison
      (WeatherDashboardGUI.fetch_comparison_data
        (fun c => if c = "Tokyo" then some tokyoPayload else none)
        ["Tokyo", "Atlantis"]) =
      Except.ok [("Tokyo", "18.0°C", "55%", "1012 hPa", "Clear Sky")] ∧
    ([("Tokyo", "18.0°C", "55%", "1012 hPa", "Clear Sky")].map
        (fun r => r.1) =
      ["Tokyo", "Atlantis"].filter (fun c =>
        ((fun c => if c = "Tokyo" then some tokyoPayload else none) c).isSome)) := by
  have hmem : ("Tokyo", tokyoPayload) ∈ WeatherDashboardGUI.fetch_comparison_data
      (fun c => if c = "Tokyo" then some tokyoPayload else none) ["Tokyo", "Atlantis"] := by
    rw [show WeatherDashboardGUI.fetch_comparison_data
        (fun c => if c = "Tokyo" then some tokyoPayload else none) ["Tokyo", "Atlantis"] =
      [("Tokyo", tokyoPayload)] from rfl]
    exact List.mem_singleton.mpr rfl
  have hdisp : WeatherDashboardGUI.display_comparison
      (WeatherDashboardGUI.fetch_comparison_data
        (fun c => if c = "Tokyo" then some tokyoPayload else none)
        ["Tokyo", "Atlantis"]) =
      Except.ok [("Tokyo", "18.0°C", "55%", "1012 hPa", "Clear Sky")] := rfl
  exact ⟨(fetch_comparison_spec
      (fun c => if c = "Tokyo" then some tokyoPayload else none)
      ["Tokyo", "Atlantis"]).2.1 ("Tokyo", tokyoPayload) hmem,
    hdisp,
    (fetch_comparison_spec
      (fun c => if c = "Tokyo" then some tokyoPayload else none)
      ["Tokyo", "Atlantis"]).2.2 _ hdisp⟩

/-- C9: whenever the fallible field accesses of a formatting function fail
with a KeyError, that is, an expected field is absent at the first faulting
access, the formatter catches it and returns the inline error string naming
the missing field; and neither formatter ever lets a KeyError escape to its
caller. -/
theorem format_missing_key_spec (now : String) (data : JVal) (k : String) :
    (WeatherDashboardGUI.tryFormatCurrent now data = Except.error (PyErr.keyError k) →
      WeatherDashboardGUI.format_current_weather now data =
        Except.ok (missingKeyCurrentMsg k)) ∧
    WeatherDashboardGUI.format_current_weather now data ≠
      Except.error (PyErr.keyError k) ∧
    (WeatherDashboardGUI.tryFormatForecast now data = Except.error (PyErr.keyError k) →
      WeatherDashboardGUI.format_forecast now data = Except.ok (missingKeyForecastMsg k)) ∧
    WeatherDashboardGUI.format_forecast now data ≠ Except.error (PyErr.keyError k) := by
  refine ⟨?_, ?_, ?_, ?_⟩
  · intro h
    unfold WeatherDashboardGUI.format_current_weather
    rw [h]
  · unfold WeatherDashboardGUI.format_current_weather
    cases htry : WeatherDashboardGUI.tryFormatCurrent now data with
    | ok s => simp
    | error e =>
      cases e with
      | keyError k2 => simp
      | indexErr => simp
      | typeErr => simp
  · intro h
    unfold WeatherDashboardGUI.format_forecast
    rw [h]
  · unfold WeatherDashboardGUI.format_forecast
    cases htry : WeatherDashboardGUI.tryFormatForecast now data with
    | ok s => simp
    | error e =>
      cases e with
      | keyError k2 => simp
      | indexErr => simp
      | typeErr => simp

/-- Witness for C9 on the fixture payload whose first faulting access is the
absent main field for the current formatter and the absent city field for
the forecast formatter. -/
theorem format_missing_key_spec_witness :
    WeatherDashboardGUI.tryFormatCurrent "2025-01-01 12:00:00" payloadMissingMain =
      Except.error (PyErr.keyError "main") ∧
    WeatherDashboardGUI.format_current_weather "2025-01-01 12:00:00" payloadMissingMain =
      Except.ok (missingKeyCurrentMsg "main") ∧
    WeatherDashboardGUI.tryFormatForecast "2025-01-01 12:00:00" payloadMissingMain =
      Except.error (PyErr.keyError "city") ∧
    WeatherDashboardGUI.format_forecast "2025-01-01 12:00:00" payloadMissingMain =
      Except.ok (missingKeyForecastMsg "city") :=
  ⟨rfl,
    (format_missing_key_spec "2025-01-01 12:00:00" payloadMissingMain "main").1 rfl,
    rfl,
    (format_missing_key_spec "2025-01-01 12:00:00" payloadMissingMain "city").2.2.1 rfl⟩
